import Mathlib

/-!
Shallow embedding of the wallet-service core of the `faithful-archive-dioxus`
repository (files `src/services/wallet/mod.rs`, `src/services/wallet/strategy.rs`,
`src/services/wallet/hooks.rs`), together with theorems settling the claims
about it.

Strings are modelled as Lean `String` (sequences of unicode characters);
the asynchronous provider calls of each wallet strategy are modelled as
oracle fields holding the outcome the provider would deliver.
-/

namespace FaithfulArchive

/-- Lowercasing of a string, character by character; models
`str::to_lowercase` on the ASCII messages the classifier works with. -/
def toLowerStr (s : String) : String :=
  String.mk (s.data.map Char.toLower)

/-- Decides whether `pat` occurs as a contiguous sublist of `hay`. -/
def subOccurs (pat : List Char) : List Char → Bool
  | [] => pat.isEmpty
  | c :: rest => pat.isPrefixOf (c :: rest) || subOccurs pat rest

/-- Substring test; models `str::contains` with a string pattern. -/
def strContains (hay pat : String) : Bool :=
  subOccurs pat.data hay.data

/-- The error taxonomy of `WalletError` in `src/services/wallet/mod.rs`
(lines 55-64). -/
inductive WalletError where
  | NotInstalled : WalletError
  | UserDenied : WalletError
  | NetworkError : String → WalletError
  | InvalidPermissions : WalletError
  | TransactionFailed : String → WalletError
  | ConnectionFailed : String → WalletError
  | SigningFailed : String → WalletError
deriving DecidableEq

/-- The display string of each error, from `impl std::fmt::Display for
WalletError` (mod.rs lines 66-78). -/
def WalletError.toMessage : WalletError → String
  | .NotInstalled => "No wallet is installed or available"
  | .UserDenied => "User denied wallet connection"
  | .NetworkError msg => "Network error: " ++ msg
  | .InvalidPermissions => "Invalid permissions requested"
  | .TransactionFailed msg => "Transaction failed: " ++ msg
  | .ConnectionFailed msg => "Connection failed: " ++ msg
  | .SigningFailed msg => "Transaction signing failed: " ++ msg

/-- The constructor tag of an error, disregarding any carried message. -/
inductive WalletErrorKind where
  | NotInstalled : WalletErrorKind
  | UserDenied : WalletErrorKind
  | NetworkError : WalletErrorKind
  | InvalidPermissions : WalletErrorKind
  | TransactionFailed : WalletErrorKind
  | ConnectionFailed : WalletErrorKind
  | SigningFailed : WalletErrorKind
deriving DecidableEq

def WalletError.kindOf : WalletError → WalletErrorKind
  | .NotInstalled => .NotInstalled
  | .UserDenied => .UserDenied
  | .NetworkError _ => .NetworkError
  | .InvalidPermissions => .InvalidPermissions
  | .TransactionFailed _ => .TransactionFailed
  | .ConnectionFailed _ => .ConnectionFailed
  | .SigningFailed _ => .SigningFailed

/-- The error classifier, from `impl From<wasm_bindgen::JsValue> for
WalletError` (mod.rs lines 80-102), applied to the message string extracted
from the foreign error value. Each branch lowercases the message afresh,
exactly as the source does. -/
def WalletError.fromJsMessage (error_msg : String) : WalletError :=
  if strContains (toLowerStr error_msg) "not installed" ||
     strContains (toLowerStr error_msg) "undefined" then
    WalletError.NotInstalled
  else if strContains (toLowerStr error_msg) "denied" ||
          strContains (toLowerStr error_msg) "rejected" then
    WalletError.UserDenied
  else if strContains (toLowerStr error_msg) "network" then
    WalletError.NetworkError error_msg
  else if strContains (toLowerStr error_msg) "permission" then
    WalletError.InvalidPermissions
  else if strContains (toLowerStr error_msg) "sign" then
    WalletError.SigningFailed error_msg
  else
    WalletError.ConnectionFailed error_msg

/-- Classifier written from the words of the specification: the lowercased
message is computed once and tested against the patterns in the stated
priority order. -/
def classifier_spec (msg : String) : WalletError :=
  let lo := toLowerStr msg
  if strContains lo "not installed" || strContains lo "undefined" then
    WalletError.NotInstalled
  else if strContains lo "denied" || strContains lo "rejected" then
    WalletError.UserDenied
  else if strContains lo "network" then
    WalletError.NetworkError msg
  else if strContains lo "permission" then
    WalletError.InvalidPermissions
  else if strContains lo "sign" then
    WalletError.SigningFailed msg
  else
    WalletError.ConnectionFailed msg

/-- The supported wallet strategies, from `WalletStrategyType` in
`src/services/wallet/strategy.rs` (lines 8-18). -/
inductive WalletStrategyType where
  | Wander : WalletStrategyType
  | Beacon : WalletStrategyType
  | WalletKit : WalletStrategyType
  | WebWallet : WalletStrategyType
deriving DecidableEq

/-- The variant name printed by the derived Debug formatting, as used in
the `format!("Strategy {:?} not registered", ...)` message. -/
def WalletStrategyType.debugName : WalletStrategyType → String
  | .Wander => "Wander"
  | .Beacon => "Beacon"
  | .WalletKit => "WalletKit"
  | .WebWallet => "WebWallet"

/-- Capability flags of a strategy, from `WalletCapabilities`
(strategy.rs lines 50-58). -/
structure WalletCapabilities where
  can_sign_transactions : Bool
  can_encrypt_data : Bool
  can_decrypt_data : Bool
  supports_batch_signing : Bool
  supports_permissions : Bool
  supports_multiple_addresses : Bool
deriving DecidableEq

/-- The `Default` capabilities (strategy.rs lines 60-71). -/
def WalletCapabilities.default : WalletCapabilities :=
  { can_sign_transactions := true
    can_encrypt_data := false
    can_decrypt_data := false
    supports_batch_signing := false
    supports_permissions := true
    supports_multiple_addresses := false }

/-- Base connection state, from `WalletState` (mod.rs lines 32-40). -/
structure WalletState where
  connected : Bool
  address : Option String
  permissions : List String
  error : Option String
  connecting : Bool
  available : Bool
deriving DecidableEq

/-- The `Default` wallet state (mod.rs lines 42-53). -/
def WalletState.default : WalletState :=
  { connected := false
    address := none
    permissions := []
    error := none
    connecting := false
    available := false }

/-- Extended shared session state, from `ExtendedWalletState`
(strategy.rs lines 74-80). -/
structure ExtendedWalletState where
  base_state : WalletState
  strategy : WalletStrategyType
  capabilities : WalletCapabilities
  available_strategies : List WalletStrategyType
deriving DecidableEq

/-- The `Default` extended state (strategy.rs lines 82-91). -/
def ExtendedWalletState.default : ExtendedWalletState :=
  { base_state := WalletState.default
    strategy := WalletStrategyType.Wander
    capabilities := WalletCapabilities.default
    available_strategies := [] }

/-- One registered strategy instance, behind the `WalletStrategy` trait.
The asynchronous provider calls are modelled as oracle fields carrying the
outcome that awaiting the call would produce in the current environment:
`is_available` models the availability probe, `get_capabilities` the
declared capability value, `connect` the result of
`connect(["ACCESS_ADDRESS", "SIGN_TRANSACTION", "ACCESS_PUBLIC_KEY"])`,
and `disconnect` the result of `disconnect()`. -/
structure Strategy where
  is_available : Except WalletError Bool
  get_capabilities : WalletCapabilities
  connect : Except WalletError String
  disconnect : Except WalletError Unit

/-- Registry and active-strategy pointer, from `WalletStrategyManager`
(strategy.rs lines 144-147). The `HashMap` registry is modelled as an
association list in an arbitrary iteration order. -/
structure WalletStrategyManager where
  strategies : List (WalletStrategyType × Strategy)
  current_strategy : Option WalletStrategyType

/-- Key lookup in the association-list registry; models `HashMap::get`
(and, through `isSome`, `HashMap::contains_key`). -/
def lookupStrategy (l : List (WalletStrategyType × Strategy))
    (t : WalletStrategyType) : Option Strategy :=
  match l with
  | [] => none
  | (k, s) :: rest => if k = t then some s else lookupStrategy rest t

/-- Loop body of `get_available_strategies` (strategy.rs lines 174-189):
a probe returning `Ok(true)` contributes the strategy kind, while
`Ok(false)` and `Err(_)` alike contribute nothing. -/
def probeEntry (p : WalletStrategyType × Strategy) : Option WalletStrategyType :=
  match p.2.is_available with
  | .ok true => some p.1
  | _ => none

/-- `WalletStrategyManager::get_available_strategies` (strategy.rs lines
169-193): collect, in registry iteration order, the kinds whose probe
answered `Ok(true)`. -/
def WalletStrategyManager.get_available_strategies
    (m : WalletStrategyManager) : List WalletStrategyType :=
  m.strategies.filterMap probeEntry

/-- `WalletStrategyManager::set_strategy` (strategy.rs lines 196-203). -/
def WalletStrategyManager.set_strategy (m : WalletStrategyManager)
    (strategy_type : WalletStrategyType) :
    Except WalletError WalletStrategyManager :=
  match lookupStrategy m.strategies strategy_type with
  | some _ => .ok { m with current_strategy := some strategy_type }
  | none => .error (.ConnectionFailed
      ("Strategy " ++ strategy_type.debugName ++ " not registered"))

/-- `WalletStrategyManager::get_current_strategy` (strategy.rs lines
206-210). -/
def WalletStrategyManager.get_current_strategy
    (m : WalletStrategyManager) : Option Strategy :=
  match m.current_strategy with
  | none => none
  | some t => lookupStrategy m.strategies t

/-- `WalletStrategyManager::with_current_strategy_mut` (strategy.rs lines
213-221): fail with `NotInstalled` when no strategy is active or the
active kind is missing from the registry, otherwise run the operation on
the active strategy. -/
def WalletStrategyManager.with_current_strategy {R : Type}
    (m : WalletStrategyManager) (f : Strategy → Except WalletError R) :
    Except WalletError R :=
  match m.current_strategy with
  | none => .error .NotInstalled
  | some t =>
    match lookupStrategy m.strategies t with
    | none => .error .NotInstalled
    | some s => f s

/-- `WalletStrategyManager::auto_select_strategy` (strategy.rs lines
240-266): empty available set fails with `NotInstalled`; otherwise the
first kind of the fixed priority list `[Wander, Beacon, WalletKit,
WebWallet]` contained in the available set is selected, falling back to
the first available member when no preferred kind matches. The mutated
manager is returned alongside the chosen kind. -/
def WalletStrategyManager.auto_select_strategy (m : WalletStrategyManager) :
    Except WalletError (WalletStrategyType × WalletStrategyManager) :=
  match m.get_available_strategies with
  | [] => .error .NotInstalled
  | first :: rest =>
    let available := first :: rest
    match [WalletStrategyType.Wander, WalletStrategyType.Beacon,
           WalletStrategyType.WalletKit, WalletStrategyType.WebWallet].find?
        (fun preferred => available.contains preferred) with
    | some preferred =>
      match m.set_strategy preferred with
      | .ok m2 => .ok (preferred, m2)
      | .error e => .error e
    | none =>
      match m.set_strategy first with
      | .ok m2 => .ok (first, m2)
      | .error e => .error e

/-- The permission list requested by every `WalletService::connect` call
(mod.rs line 201), already as owned strings. -/
def requestedPermissions : List String :=
  ["ACCESS_ADDRESS", "SIGN_TRANSACTION", "ACCESS_PUBLIC_KEY"]

/-- The whole service-level state: the manager owned by `WalletService`
together with the process-wide shared `ExtendedWalletState` signal. -/
structure WalletServiceState where
  strategy_manager : WalletStrategyManager
  extended_state : ExtendedWalletState

/-- The shared session state as `WalletService::connect` leaves it right
before dispatching to the active strategy (mod.rs lines 198-199):
`connecting` is set and `error` is cleared. -/
def connect_before_dispatch (es : ExtendedWalletState) : ExtendedWalletState :=
  { es with base_state :=
      { es.base_state with connecting := true, error := none } }

/-- The shared session state as `WalletService::disconnect` leaves it
right before dispatching to the active strategy (mod.rs lines 227-234):
no field is written before the dispatch. -/
def disconnect_before_dispatch (es : ExtendedWalletState) : ExtendedWalletState :=
  es

/-- `WalletService::connect` (mod.rs lines 195-224): set `connecting`,
clear `error`, dispatch `connect` with the fixed permission list to the
active strategy; on success record the returned address, the requested
permissions and `connected = true`; on failure record the displayed error
message. Returns the call result together with the updated state. -/
def WalletService.connect (st : WalletServiceState) :
    Except WalletError String × WalletServiceState :=
  let es := connect_before_dispatch st.extended_state
  match st.strategy_manager.with_current_strategy (fun s => s.connect) with
  | .ok address =>
    (.ok address,
     { st with extended_state :=
        { es with base_state :=
          { es.base_state with
              connected := true
              address := some address
              permissions := requestedPermissions
              connecting := false } } })
  | .error e =>
    (.error e,
     { st with extended_state :=
        { es with base_state :=
          { es.base_state with
              connecting := false
              error := some e.toMessage } } })

/-- `WalletService::disconnect` (mod.rs lines 227-249): dispatch
`disconnect` to the active strategy; on success reset `connected`,
`address`, `permissions` and `error`; on failure store only the displayed
error message. -/
def WalletService.disconnect (st : WalletServiceState) :
    Except WalletError Unit × WalletServiceState :=
  let es := disconnect_before_dispatch st.extended_state
  match st.strategy_manager.with_current_strategy (fun s => s.disconnect) with
  | .ok _ =>
    (.ok (),
     { st with extended_state :=
        { es with base_state :=
          { es.base_state with
              connected := false
              address := none
              permissions := []
              error := none } } })
  | .error e =>
    (.error e,
     { st with extended_state :=
        { es with base_state :=
          { es.base_state with error := some e.toMessage } } })

/-- `WalletService::set_strategy` (mod.rs lines 180-192): delegate to the
manager (propagating its error untouched), then record the new strategy
kind in the shared state and refresh the capabilities from the now-active
strategy. -/
def WalletService.set_strategy (st : WalletServiceState)
    (strategy_type : WalletStrategyType) :
    Except WalletError Unit × WalletServiceState :=
  match st.strategy_manager.set_strategy strategy_type with
  | .error e => (.error e, st)
  | .ok mgr =>
    let es := { st.extended_state with strategy := strategy_type }
    match mgr.get_current_strategy with
    | some s =>
      (.ok (), { strategy_manager := mgr,
                 extended_state := { es with capabilities := s.get_capabilities } })
    | none =>
      (.ok (), { strategy_manager := mgr, extended_state := es })

/-- `WalletService::format_address` (mod.rs lines 279-285): addresses of
length at most 10 are returned unchanged, longer ones are abbreviated to
the first 6 characters, an ellipsis, and the last 4 characters. -/
def WalletService.format_address (address : String) : String :=
  if address.length ≤ 10 then address
  else
    String.mk (address.data.take 6) ++ "..." ++
      String.mk (address.data.drop (address.length - 4))

/-- `is_valid_arweave_address` (hooks.rs lines 391-395). -/
def is_valid_arweave_address (address : String) : Bool :=
  address.length == 43 &&
    address.data.all (fun c => c.isAlphanum || c == '-' || c == '_')

/-- The position of a strategy kind in the fixed auto-selection priority
order Wander > Beacon > WalletKit > WebWallet; lower is preferred. -/
def priorityRank : WalletStrategyType → Nat
  | .Wander => 0
  | .Beacon => 1
  | .WalletKit => 2
  | .WebWallet => 3

/-- A sample strategy resembling the Wander adapter with its provider
present and cooperative. -/
def sampleWander : Strategy :=
  { is_available := .ok true
    get_capabilities :=
      { can_sign_transactions := true
        can_encrypt_data := true
        can_decrypt_data := true
        supports_batch_signing := false
        supports_permissions := true
        supports_multiple_addresses := true }
    connect := .ok "GoodAddr"
    disconnect := .ok () }

/-- A sample strategy whose provider resolves the connect call with an
empty address string, as the Beacon adapter passes through verbatim. -/
def emptyAddrStrategy : Strategy :=
  { is_available := .ok true
    get_capabilities := WalletCapabilities.default
    connect := .ok ""
    disconnect := .ok () }

/-- A sample strategy whose provider fails every call, including the
availability probe. -/
def failingStrategy : Strategy :=
  { is_available := .error (.ConnectionFailed "probe failed")
    get_capabilities := WalletCapabilities.default
    connect := .error .UserDenied
    disconnect := .error (.ConnectionFailed "Beacon disconnect failed: timeout") }

/-- A service state with a cooperative Wander strategy registered and
active. -/
def sampleServiceState : WalletServiceState :=
  { strategy_manager :=
      { strategies := [(.Wander, sampleWander)]
        current_strategy := some .Wander }
    extended_state := ExtendedWalletState.default }

/-- A service state whose active strategy reports an empty address on a
successful connect. -/
def emptyAddrServiceState : WalletServiceState :=
  { strategy_manager :=
      { strategies := [(.Beacon, emptyAddrStrategy)]
        current_strategy := some .Beacon }
    extended_state := ExtendedWalletState.default }

/-- A service state that is already connected, with a stale error
recorded, and whose active strategy fails every call. -/
def failingConnectedState : WalletServiceState :=
  { strategy_manager :=
      { strategies := [(.Wander, failingStrategy)]
        current_strategy := some .Wander }
    extended_state :=
      { ExtendedWalletState.default with base_state :=
          { WalletState.default with
              connected := true
              address := some "GoodAddr"
              error := some "stale" } } }

/-- A session state carrying a stale error message. -/
def staleErrorState : ExtendedWalletState :=
  { ExtendedWalletState.default with base_state :=
      { WalletState.default with error := some "stale" } }

/-- A manager whose preferred Wander strategy fails its availability
probe while the registered Beacon strategy probes available. -/
def probeErrorManager : WalletStrategyManager :=
  { strategies := [(.Wander, failingStrategy), (.Beacon, emptyAddrStrategy)]
    current_strategy := none }

end FaithfulArchive

namespace FaithfulArchive

/-- C1: for every input string the classifier returns exactly the kind
demanded by the case-insensitive substring rules in their fixed priority
order: "not installed"/"undefined" gives NotInstalled, then
"denied"/"rejected" gives UserDenied, then "network" gives NetworkError
with the message, then "permission" gives InvalidPermissions, then "sign"
gives SigningFailed with the message, and otherwise ConnectionFailed with
the raw message unchanged. -/
theorem classifier_matches_spec (m : String) :
    WalletError.fromJsMessage m = classifier_spec m := rfl

/-- C7 counterexample: the canonical display message of NotInstalled,
namely "No wallet is installed or available", does not contain the
substring "not installed" (nor any other pattern), so the classifier maps
it to ConnectionFailed, not back to NotInstalled. -/
theorem classifier_idempotence_cex :
    (WalletError.fromJsMessage (WalletError.toMessage .NotInstalled)).kindOf ≠
      WalletErrorKind.NotInstalled := by decide

/-- C7 amended: classifying "User denied request" yields UserDenied; the
kinds UserDenied and InvalidPermissions are stable under classification of
their display message, as are NetworkError, ConnectionFailed and
SigningFailed when carrying an empty detail message; the display messages
of NotInstalled and of TransactionFailed instead re-classify as
ConnectionFailed. -/
theorem classifier_kind_stability :
    WalletError.fromJsMessage "User denied request" = .UserDenied ∧
    WalletError.fromJsMessage (WalletError.toMessage .UserDenied) = .UserDenied ∧
    WalletError.fromJsMessage (WalletError.toMessage .InvalidPermissions) =
      .InvalidPermissions ∧
    (WalletError.fromJsMessage (WalletError.toMessage (.NetworkError ""))).kindOf =
      .NetworkError ∧
    (WalletError.fromJsMessage (WalletError.toMessage (.ConnectionFailed ""))).kindOf =
      .ConnectionFailed ∧
    (WalletError.fromJsMessage (WalletError.toMessage (.SigningFailed ""))).kindOf =
      .SigningFailed ∧
    (WalletError.fromJsMessage (WalletError.toMessage .NotInstalled)).kindOf =
      .ConnectionFailed ∧
    (WalletError.fromJsMessage (WalletError.toMessage (.TransactionFailed ""))).kindOf =
      .ConnectionFailed := by
  refine ⟨?_, ?_, ?_, ?_, ?_, ?_, ?_, ?_⟩ <;> decide

/-- C9: format_address returns addresses of length at most 10 unchanged,
and for every longer address returns the first 6 characters, the literal
"...", and the last 4 characters of the input. -/
theorem format_address_spec (address : String) :
    (address.length ≤ 10 → WalletService.format_address address = address) ∧
    (10 < address.length →
      WalletService.format_address address =
        String.mk (address.data.take 6) ++ "..." ++
          String.mk (address.data.drop (address.length - 4))) := by
  constructor
  · intro h
    unfold WalletService.format_address
    rw [if_pos h]
  · intro h
    unfold WalletService.format_address
    rw [if_neg (by omega)]

/-- C9 witness: a 6-character address is unchanged, and a 13-character
address is abbreviated to its first 6 and last 4 characters. -/
theorem format_address_spec_witness :
    WalletService.format_address "abcdef" = "abcdef" ∧
    WalletService.format_address "abcdefghijklm" = "abcdef...jklm" := by
  refine ⟨(format_address_spec "abcdef").1 (by decide), ?_⟩
  rw [(format_address_spec "abcdefghijklm").2 (by decide)]
  decide

/-- C10: is_valid_arweave_address accepts exactly the strings of length 43
whose characters are all alphanumeric or a hyphen or an underscore. -/
theorem is_valid_arweave_address_spec (address : String) :
    is_valid_arweave_address address = true ↔
      (address.length = 43 ∧
        ∀ c ∈ address.data, (c.isAlphanum = true ∨ c = '-' ∨ c = '_')) := by
  unfold is_valid_arweave_address
  rw [Bool.and_eq_true, beq_iff_eq, List.all_eq_true]
  refine and_congr_right fun _ => ?_
  refine forall_congr' fun c => ?_
  refine imp_congr_right fun _ => ?_
  rw [Bool.or_eq_true, Bool.or_eq_true, beq_iff_eq, beq_iff_eq, or_assoc]

/-- C10 witness: a concrete 43-character base64url-shaped string is
accepted. -/
theorem is_valid_arweave_address_spec_witness :
    is_valid_arweave_address "aaaaaaaaaaaaaaaaaaaaaaaaaaaaaaaaaaaaaaaa-_Z" = true :=
  (is_valid_arweave_address_spec _).mpr ⟨by decide, by decide⟩

theorem probeEntry_eq_some (p : WalletStrategyType × Strategy)
    (t : WalletStrategyType) :
    probeEntry p = some t ↔ p.1 = t ∧ p.2.is_available = .ok true := by
  unfold probeEntry
  cases h : p.2.is_available with
  | error e => simp
  | ok b => cases b <;> simp

/-- C5: a strategy kind appears in the discovered-available list exactly
when some registry entry for that kind has an availability probe that
answered Ok(true); probes answering Ok(false) or failing with an error
alike contribute nothing, and the probe outcome of one strategy has no
influence on whether another strategy appears. The function itself is
total by its type: no probe failure can make discovery fail. -/
theorem get_available_strategies_isolated (m : WalletStrategyManager)
    (t : WalletStrategyType) :
    t ∈ m.get_available_strategies ↔
      ∃ s, (t, s) ∈ m.strategies ∧ s.is_available = .ok true := by
  unfold WalletStrategyManager.get_available_strategies
  rw [List.mem_filterMap]
  constructor
  · rintro ⟨p, hmem, hp⟩
    rw [probeEntry_eq_some] at hp
    refine ⟨p.2, ?_, hp.2⟩
    rw [← hp.1]
    simpa using hmem
  · rintro ⟨s, hmem, hav⟩
    exact ⟨(t, s), hmem, (probeEntry_eq_some (t, s) t).mpr ⟨rfl, hav⟩⟩

/-- C5 witness: in a registry where the Wander probe raises an error and
the Beacon probe answers Ok(true), Beacon is still discovered. -/
theorem get_available_strategies_isolated_witness :
    WalletStrategyType.Beacon ∈ probeErrorManager.get_available_strategies :=
  (get_available_strategies_isolated probeErrorManager .Beacon).mpr
    ⟨emptyAddrStrategy, List.mem_cons_of_mem _ (List.mem_cons_self _ _), rfl⟩

/-- C2 counterexample: the claim fails twice on the code. First, a
successful connect may record an empty address: with a strategy whose
provider resolves connect with the empty string (as the Beacon adapter
passes through), the session ends with address = some "". Second, a
failed connect does not reset `connected`: from an already-connected
session, a failing connect leaves connected = true. -/
theorem connect_spec_cex :
    ((WalletService.connect emptyAddrServiceState).1 = .ok "" ∧
     (WalletService.connect emptyAddrServiceState).2.extended_state.base_state.address =
       some "") ∧
    ((WalletService.connect failingConnectedState).1 = .error .UserDenied ∧
     (WalletService.connect failingConnectedState).2.extended_state.base_state.connected =
       true) :=
  ⟨⟨rfl, rfl⟩, ⟨rfl, rfl⟩⟩

/-- C2 amended: when connect() succeeds with address a, the session state
has connected = true, address = some a (the string returned by the
strategy, possibly empty), error = none, connecting = false, and the
requested permission list; when connect() fails, connecting = false, the
error message is stored, and connected keeps its prior value. -/
theorem connect_postconditions (st : WalletServiceState) :
    (∀ a, (WalletService.connect st).1 = .ok a →
      ((WalletService.connect st).2.extended_state.base_state.connected = true ∧
       (WalletService.connect st).2.extended_state.base_state.address = some a ∧
       (WalletService.connect st).2.extended_state.base_state.error = none ∧
       (WalletService.connect st).2.extended_state.base_state.connecting = false ∧
       (WalletService.connect st).2.extended_state.base_state.permissions =
         ["ACCESS_ADDRESS", "SIGN_TRANSACTION", "ACCESS_PUBLIC_KEY"])) ∧
    (∀ e, (WalletService.connect st).1 = .error e →
      ((WalletService.connect st).2.extended_state.base_state.connected =
         st.extended_state.base_state.connected ∧
       (WalletService.connect st).2.extended_state.base_state.connecting = false ∧
       (WalletService.connect st).2.extended_state.base_state.error =
         some e.toMessage)) := by
  unfold WalletService.connect
  cases h : st.strategy_manager.with_current_strategy (fun s => s.connect) with
  | ok address =>
    constructor
    · intro a ha
      simp only [Except.ok.injEq] at ha
      subst ha
      exact ⟨rfl, rfl, rfl, rfl, rfl⟩
    · intro e he
      simp at he
  | error e0 =>
    constructor
    · intro a ha
      simp at ha
    · intro e he
      simp only [Except.error.injEq] at he
      subst he
      exact ⟨rfl, rfl, rfl⟩

/-- C2 witness: the amended postconditions instantiated on a successful
connect and on a failing connect from an already-connected session. -/
theorem connect_postconditions_witness :
    ((WalletService.connect sampleServiceState).2.extended_state.base_state.connected =
       true ∧
     (WalletService.connect sampleServiceState).2.extended_state.base_state.address =
       some "GoodAddr" ∧
     (WalletService.connect sampleServiceState).2.extended_state.base_state.error =
       none ∧
     (WalletService.connect sampleServiceState).2.extended_state.base_state.connecting =
       false ∧
     (WalletService.connect sampleServiceState).2.extended_state.base_state.permissions =
       ["ACCESS_ADDRESS", "SIGN_TRANSACTION", "ACCESS_PUBLIC_KEY"]) ∧
    ((WalletService.connect failingConnectedState).2.extended_state.base_state.connected =
       failingConnectedState.extended_state.base_state.connected ∧
     (WalletService.connect failingConnectedState).2.extended_state.base_state.connecting =
       false ∧
     (WalletService.connect failingConnectedState).2.extended_state.base_state.error =
       some (WalletError.toMessage .UserDenied)) :=
  ⟨(connect_postconditions sampleServiceState).1 "GoodAddr" rfl,
   (connect_postconditions failingConnectedState).2 .UserDenied rfl⟩

/-- C4: a successful disconnect resets connected, address, permissions and
error and changes nothing else; a failing disconnect stores the error
message and leaves every other field of the service state unchanged. -/
theorem disconnect_postconditions (st : WalletServiceState) :
    ((WalletService.disconnect st).1 = .ok () →
      (WalletService.disconnect st).2 =
        { st with extended_state :=
            { st.extended_state with base_state :=
                { st.extended_state.base_state with
                    connected := false
                    address := none
                    permissions := []
                    error := none } } }) ∧
    (∀ e, (WalletService.disconnect st).1 = .error e →
      (WalletService.disconnect st).2 =
        { st with extended_state :=
            { st.extended_state with base_state :=
                { st.extended_state.base_state with
                    error := some e.toMessage } } }) := by
  unfold WalletService.disconnect disconnect_before_dispatch
  cases h : st.strategy_manager.with_current_strategy (fun s => s.disconnect) with
  | ok u =>
    constructor
    · intro _
      rfl
    · intro e he
      simp at he
  | error e0 =>
    constructor
    · intro hok
      simp at hok
    · intro e he
      simp only [Except.error.injEq] at he
      subst he
      rfl

/-- C4 witness: the postconditions instantiated on a successful
disconnect and on a failing disconnect. -/
theorem disconnect_postconditions_witness :
    (WalletService.disconnect sampleServiceState).2 =
      { sampleServiceState with extended_state :=
          { sampleServiceState.extended_state with base_state :=
              { sampleServiceState.extended_state.base_state with
                  connected := false
                  address := none
                  permissions := []
                  error := none } } } ∧
    (WalletService.disconnect failingConnectedState).2 =
      { failingConnectedState with extended_state :=
          { failingConnectedState.extended_state with base_state :=
              { failingConnectedState.extended_state.base_state with
                  error := some (WalletError.toMessage
                    (.ConnectionFailed "Beacon disconnect failed: timeout")) } } } :=
  ⟨(disconnect_postconditions sampleServiceState).1 rfl,
   (disconnect_postconditions failingConnectedState).2
     (.ConnectionFailed "Beacon disconnect failed: timeout") rfl⟩

/-- C8 counterexample: a disconnect attempt does not clear the error field
before dispatching to the strategy: from a session holding a stale error,
the state handed to the dispatch still carries it. -/
theorem error_cleared_cex :
    (disconnect_before_dispatch staleErrorState).base_state.error = some "stale" ∧
    some "stale" ≠ (none : Option String) :=
  ⟨rfl, by decide⟩

/-- C8 amended: every connect() attempt clears the error field before
dispatching to the active strategy; a disconnect() attempt writes nothing
before dispatching (a stale error survives until the result arrives), but
on completion the prior error is always overwritten: none on success, the
new message on failure. -/
theorem error_clearing (es : ExtendedWalletState) (st : WalletServiceState) :
    (connect_before_dispatch es).base_state.error = none ∧
    disconnect_before_dispatch es = es ∧
    ((WalletService.disconnect st).1 = .ok () →
      (WalletService.disconnect st).2.extended_state.base_state.error = none) ∧
    (∀ e, (WalletService.disconnect st).1 = .error e →
      (WalletService.disconnect st).2.extended_state.base_state.error =
        some e.toMessage) := by
  refine ⟨rfl, rfl, ?_, ?_⟩
  · intro hok
    unfold WalletService.disconnect at hok ⊢
    cases h : st.strategy_manager.with_current_strategy (fun s => s.disconnect) with
    | ok u => rfl
    | error e0 =>
      rw [h] at hok
      simp at hok
  · intro e he
    unfold WalletService.disconnect at he ⊢
    cases h : st.strategy_manager.with_current_strategy (fun s => s.disconnect) with
    | ok u =>
      rw [h] at he
      simp at he
    | error e0 =>
      rw [h] at he
      simp only [Except.error.injEq] at he
      subst he
      rfl

/-- C8 witness: the amended statement instantiated on the stale-error
session state and a failing-disconnect service state. -/
theorem error_clearing_witness :
    (connect_before_dispatch staleErrorState).base_state.error = none ∧
    disconnect_before_dispatch staleErrorState = staleErrorState ∧
    (WalletService.disconnect failingConnectedState).2.extended_state.base_state.error =
      some (WalletError.toMessage
        (.ConnectionFailed "Beacon disconnect failed: timeout")) :=
  ⟨(error_clearing staleErrorState failingConnectedState).1,
   (error_clearing staleErrorState failingConnectedState).2.1,
   (error_clearing staleErrorState failingConnectedState).2.2.2
     (.ConnectionFailed "Beacon disconnect failed: timeout") rfl⟩

/-- C6: setting a registered strategy kind succeeds and afterwards the
session capabilities are exactly the capabilities declared by that
strategy; setting an unregistered kind fails with a ConnectionFailed
error. -/
theorem set_strategy_roundtrip (st : WalletServiceState)
    (t : WalletStrategyType) :
    (∀ s, lookupStrategy st.strategy_manager.strategies t = some s →
      (WalletService.set_strategy st t).1 = .ok () ∧
      (WalletService.set_strategy st t).2.extended_state.capabilities =
        s.get_capabilities) ∧
    (lookupStrategy st.strategy_manager.strategies t = none →
      (WalletService.set_strategy st t).1 =
        .error (.ConnectionFailed
          ("Strategy " ++ t.debugName ++ " not registered"))) := by
  constructor
  · intro s hs
    simp only [WalletService.set_strategy, WalletStrategyManager.set_strategy,
      WalletStrategyManager.get_current_strategy, hs]
    exact ⟨trivial, trivial⟩
  · intro hs
    simp only [WalletService.set_strategy, WalletStrategyManager.set_strategy, hs]

/-- C6 witness: the round-trip instantiated on a registered Wander
strategy and an unregistered WebWallet kind. -/
theorem set_strategy_roundtrip_witness :
    ((WalletService.set_strategy sampleServiceState .Wander).1 = .ok () ∧
     (WalletService.set_strategy sampleServiceState .Wander).2.extended_state.capabilities =
       sampleWander.get_capabilities) ∧
    (WalletService.set_strategy sampleServiceState .WebWallet).1 =
      .error (.ConnectionFailed
        ("Strategy " ++ WalletStrategyType.WebWallet.debugName ++ " not registered")) :=
  ⟨(set_strategy_roundtrip sampleServiceState .Wander).1 sampleWander rfl,
   (set_strategy_roundtrip sampleServiceState .WebWallet).2 rfl⟩

theorem contains_true_of_mem {L : List WalletStrategyType}
    {a : WalletStrategyType} (h : a ∈ L) : L.contains a = true :=
  List.elem_iff.mpr h

theorem contains_false_of_not_mem {L : List WalletStrategyType}
    {a : WalletStrategyType} (h : a ∉ L) : ¬L.contains a = true :=
  fun hc => h (List.elem_iff.mp hc)

theorem lookupStrategy_isSome_of_mem_avail
    (l : List (WalletStrategyType × Strategy)) (k : WalletStrategyType)
    (h : k ∈ l.filterMap probeEntry) : (lookupStrategy l k).isSome := by
  induction l with
  | nil => simp at h
  | cons p rest ih =>
    obtain ⟨k0, s0⟩ := p
    rw [List.filterMap_cons] at h
    by_cases hk : k0 = k
    · simp [lookupStrategy, hk]
    · have hrest : k ∈ rest.filterMap probeEntry := by
        cases hp : probeEntry (k0, s0) with
        | none => rwa [hp] at h
        | some b =>
          rw [hp] at h
          rcases List.mem_cons.mp h with hkb | hmem
          · exact absurd (((probeEntry_eq_some (k0, s0) b).mp hp).1.trans hkb.symm) hk
          · exact hmem
      simpa [lookupStrategy, hk] using ih hrest

theorem find_preferred_min (L : List WalletStrategyType) (hne : L ≠ []) :
    ∃ k, ([WalletStrategyType.Wander, WalletStrategyType.Beacon,
        WalletStrategyType.WalletKit, WalletStrategyType.WebWallet].find?
          (fun preferred => L.contains preferred)) = some k ∧
      k ∈ L ∧ ∀ j ∈ L, priorityRank k ≤ priorityRank j := by
  by_cases hW : WalletStrategyType.Wander ∈ L
  · exact ⟨.Wander, List.find?_cons_of_pos _ (contains_true_of_mem hW), hW,
      fun j _ => Nat.zero_le _⟩
  · by_cases hB : WalletStrategyType.Beacon ∈ L
    · refine ⟨.Beacon, ?_, hB, ?_⟩
      · rw [List.find?_cons_of_neg _ (contains_false_of_not_mem hW),
          List.find?_cons_of_pos _ (contains_true_of_mem hB)]
      · intro j hj
        cases j
        · exact absurd hj hW
        · exact Nat.le_refl _
        · decide
        · decide
    · by_cases hK : WalletStrategyType.WalletKit ∈ L
      · refine ⟨.WalletKit, ?_, hK, ?_⟩
        · rw [List.find?_cons_of_neg _ (contains_false_of_not_mem hW),
            List.find?_cons_of_neg _ (contains_false_of_not_mem hB),
            List.find?_cons_of_pos _ (contains_true_of_mem hK)]
        · intro j hj
          cases j
          · exact absurd hj hW
          · exact absurd hj hB
          · exact Nat.le_refl _
          · decide
      · by_cases hWeb : WalletStrategyType.WebWallet ∈ L
        · refine ⟨.WebWallet, ?_, hWeb, ?_⟩
          · rw [List.find?_cons_of_neg _ (contains_false_of_not_mem hW),
              List.find?_cons_of_neg _ (contains_false_of_not_mem hB),
              List.find?_cons_of_neg _ (contains_false_of_not_mem hK),
              List.find?_cons_of_pos _ (contains_true_of_mem hWeb)]
          · intro j hj
            cases j
            · exact absurd hj hW
            · exact absurd hj hB
            · exact absurd hj hK
            · exact Nat.le_refl _
        · exfalso
          obtain ⟨x, hx⟩ := List.exists_mem_of_ne_nil L hne
          cases x
          · exact hW hx
          · exact hB hx
          · exact hK hx
          · exact hWeb hx

/-- C3: when the discovered-available set is empty, auto-selection fails
with NotInstalled; otherwise it returns a highest-priority member of the
available set under the fixed order Wander > Beacon > WalletKit >
WebWallet and records it as the current active strategy of the manager. -/
theorem auto_select_strategy_spec (m : WalletStrategyManager) :
    (m.get_available_strategies = [] →
      m.auto_select_strategy = .error .NotInstalled) ∧
    (∀ a av, m.get_available_strategies = a :: av →
      ∃ k, k ∈ a :: av ∧ (∀ j ∈ a :: av, priorityRank k ≤ priorityRank j) ∧
        m.auto_select_strategy =
          .ok (k, { m with current_strategy := some k })) := by
  constructor
  · intro h
    unfold WalletStrategyManager.auto_select_strategy
    rw [h]
  · intro a av h
    obtain ⟨k, hfind, hkmem, hkmin⟩ := find_preferred_min (a :: av) (by simp)
    refine ⟨k, hkmem, hkmin, ?_⟩
    have hmem : k ∈ m.strategies.filterMap probeEntry :=
      show k ∈ m.get_available_strategies from h ▸ hkmem
    obtain ⟨s, hs⟩ := Option.isSome_iff_exists.mp
      (lookupStrategy_isSome_of_mem_avail m.strategies k hmem)
    simp only [WalletStrategyManager.auto_select_strategy, h, hfind,
      WalletStrategyManager.set_strategy, hs]

/-- C3 witness: over a registry whose preferred Wander strategy fails its
probe and whose Beacon strategy is available, auto-selection returns
Beacon and activates it. -/
theorem auto_select_strategy_spec_witness :
    ∃ k, k ∈ [WalletStrategyType.Beacon] ∧
      (∀ j ∈ [WalletStrategyType.Beacon], priorityRank k ≤ priorityRank j) ∧
      probeErrorManager.auto_select_strategy =
        .ok (k, { probeErrorManager with current_strategy := some k }) :=
  (auto_select_strategy_spec probeErrorManager).2 .Beacon [] rfl

end FaithfulArchive
